import Mathlib

/-
Shallow embedding of the polls backend (models.py, serializers.py, views.py,
permissions.py). The relational store is a record of row lists; each Django
operation becomes a Lean function on the store. A raised exception inside a
transaction-wrapped view method means the transaction is rolled back, which
the embedding renders as an Except error that discards the intermediate
store; the commit helpers make the resulting store explicit.
-/

deriving instance DecidableEq for Except

namespace PollsFr

/-- Question.QuestionType from models.py. -/
inductive QuestionType
  | text
  | single_choice
  | multi_choice
  deriving DecidableEq, Repr

/-- Poll model row: name, start_date, end_date, description, is_published. -/
structure Poll where
  id : Nat
  name : String
  start_date : Int
  end_date : Int
  description : String
  is_published : Bool
  deriving DecidableEq, Repr

/-- Question model row: poll foreign key, text, type. -/
structure Question where
  id : Nat
  poll_id : Nat
  text : String
  type : QuestionType
  deriving DecidableEq, Repr

/-- ChoiceAnswer model row: question foreign key, text. -/
structure ChoiceAnswer where
  id : Nat
  question_id : Nat
  text : String
  deriving DecidableEq, Repr

/-- Answer model row: question foreign key, nullable text, many-to-many
choice links, nullable user and anonymous_id. -/
structure Answer where
  id : Nat
  question_id : Nat
  text : Option String
  choice_ids : List Nat
  user_id : Option Nat
  anonymous_id : Option Int
  deriving DecidableEq, Repr

/-- The relational store: one list of rows per table, plus a fresh-id
counter standing for the auto-increment primary keys. -/
structure Store where
  polls : List Poll
  questions : List Question
  choices : List ChoiceAnswer
  answers : List Answer
  next_id : Nat
  deriving DecidableEq, Repr

/-- Python exceptions that cross the operation boundaries. -/
inductive PyErr
  | validationError (msg : String)
  | valueError (msg : String)
  | integrityError
  | doesNotExist
  | notFound
  | typeError
  deriving DecidableEq, Repr

/-- Python truthiness of an optional string (query parameter): an absent or
empty string is falsy. -/
def py_truthy_str : Option String → Bool
  | none => false
  | some s => s != ""

/-- Python truthiness of an optional integer (JSON body field): absent or
zero is falsy. -/
def py_truthy_int : Option Int → Bool
  | none => false
  | some n => n != 0

/-- Question.has_choice property from models.py. -/
def Question.has_choice (q : Question) : Bool :=
  q.type == QuestionType.multi_choice || q.type == QuestionType.single_choice

/-- UserPollsPermission.has_permission from permissions.py. For the
vote_in_poll and show_answers actions the caller passes iff authenticated
status differs from the truthiness of the supplied anonymous_id (query
parameter or body field). -/
def UserPollsPermission.has_permission (isVoteOrShowAction : Bool)
    (is_authenticated : Bool) (queryAnonymousId : Option String)
    (dataAnonymousId : Option Int) : Bool :=
  if isVoteOrShowAction then
    let is_anonymous_id := py_truthy_str queryAnonymousId || py_truthy_int dataAnonymousId
    if is_authenticated == is_anonymous_id then false else true
  else true

/-- Poll.objects lookup by primary key. -/
def findPoll (s : Store) (pk : Nat) : Option Poll :=
  s.polls.find? (fun p => p.id == pk)

/-- Question.objects lookup by primary key. -/
def findQuestion (s : Store) (qid : Nat) : Option Question :=
  s.questions.find? (fun q => q.id == qid)

/-- The questions related manager of a poll: all questions whose poll
foreign key is the given poll id. -/
def pollQuestions (s : Store) (pollId : Nat) : List Question :=
  s.questions.filter (fun q => q.poll_id == pollId)

/-- One submitted answer as it arrives in the request body: a question
primary key, an optional choice id list, an optional text. -/
structure RawAnswer where
  question_id : Nat
  choice : Option (List Nat)
  text : Option String
  deriving DecidableEq, Repr

/-- One answer after field validation: the question row resolved from its
primary key, plus the submitted choice list and text. -/
structure AnswerAttrs where
  question : Question
  choice : Option (List Nat)
  text : Option String
  deriving DecidableEq, Repr

/-- AnswerSerializer.validate from serializers.py: per-type shape check.
For a text question any present choice list is rejected; for single_choice
the code takes len of the choice value (a TypeError when it is absent) and
rejects more than one choice or a present text; for multi_choice only a
present text is rejected. -/
def AnswerSerializer.validate (attrs : AnswerAttrs) : Except PyErr Unit :=
  match attrs.question.type with
  | QuestionType.text =>
      if attrs.choice ≠ none then
        .error (.validationError "This is text question, not choice")
      else .ok ()
  | QuestionType.single_choice =>
      match attrs.choice with
      | none => .error .typeError
      | some cs =>
          if cs.length > 1 ∨ attrs.text ≠ none then
            .error (.validationError "This question only for one choice and choice field not contains text")
          else .ok ()
  | QuestionType.multi_choice =>
      if attrs.text ≠ none then
        .error (.validationError "Choice field not contains text")
      else .ok ()

/-- Do all submitted choice ids exist in the ChoiceAnswer table? This is
the PrimaryKeyRelatedField existence check for the choice field. -/
def choicesExist (s : Store) : Option (List Nat) → Bool
  | none => true
  | some cs => cs.all (fun c => s.choices.any (fun ch => ch.id == c))

/-- Field validation of one submitted answer: resolve the question primary
key, check the choice ids exist, then run AnswerSerializer.validate. -/
def resolveAnswer (s : Store) (r : RawAnswer) : Except PyErr AnswerAttrs :=
  match findQuestion s r.question_id with
  | none => .error (.validationError "Invalid pk")
  | some q =>
      if choicesExist s r.choice then
        match AnswerSerializer.validate ⟨q, r.choice, r.text⟩ with
        | .error e => .error e
        | .ok _ => .ok ⟨q, r.choice, r.text⟩
      else .error (.validationError "Invalid pk")

/-- Field validation of the submitted answer list, first failure wins. -/
def resolveAnswers (s : Store) : List RawAnswer → Except PyErr (List AnswerAttrs)
  | [] => .ok []
  | r :: rest =>
      match resolveAnswer s r with
      | .error e => .error e
      | .ok a =>
          match resolveAnswers s rest with
          | .error e => .error e
          | .ok rest2 => .ok (a :: rest2)

/-- UserPollSerializer.validate from serializers.py. Each answer must point
at a question of the poll named in the URL; then the poll is fetched from
view.queryset, which is the UNFILTERED class attribute Poll.objects.all()
(the active-window filter of UserPolls.get_queryset is not applied on this
path); then the answer count must equal the poll question count and the
question sets must coincide. -/
def UserPollSerializer.validate (s : Store) (pk : Nat)
    (answers : List AnswerAttrs) : Except PyErr Unit :=
  if answers.any (fun a => a.question.poll_id != pk) then
    .error (.validationError "Invalid question id for this poll")
  else
    match findPoll s pk with
    | none => .error .doesNotExist
    | some _poll =>
        if (pollQuestions s pk).length ≠ answers.length then
          .error (.validationError "pls answer the all questions")
        else if (answers.map (fun a => a.question.id)).toFinset ≠
            ((pollQuestions s pk).map (fun q => q.id)).toFinset then
          .error (.validationError "Invalid question ids for this poll")
        else .ok ()

/-- Does a stored Answer row carry exactly this identity and question? -/
def answerMatches (r : Answer) (u : Option Nat) (a : Option Int) (q : Nat) : Bool :=
  r.user_id == u && r.anonymous_id == a && r.question_id == q

/-- Answer.save from models.py: reject when the user field and the
anonymous_id field are both truthy, then reject when a row with the same
(user, anonymous_id, question) triple already exists, else insert. -/
def Answer.save (s : Store) (a : Answer) : Except PyErr Store :=
  if a.user_id.isSome && py_truthy_int a.anonymous_id then
    .error (.valueError "Cant use user auth and anonymous token both")
  else if s.answers.any (fun r => answerMatches r a.user_id a.anonymous_id a.question_id) then
    .error (.valueError "Value not unique")
  else
    .ok { s with answers := s.answers ++ [a], next_id := s.next_id + 1 }

/-- UserPollSerializer.create from serializers.py: for each validated
answer build an Answer row with the resolved voter identity and save it,
adding the choice links; a ValueError from Answer.save is re-raised as a
ValidationError with the same message. -/
def UserPollSerializer.create (user : Option Nat) (anonymous_id : Option Int) :
    Store → List AnswerAttrs → Except PyErr (Store × List Answer)
  | s, [] => .ok (s, [])
  | s, t :: rest =>
      let row : Answer :=
        ⟨s.next_id, t.question.id, t.text, t.choice.getD [], user, anonymous_id⟩
      match Answer.save s row with
      | .error (.valueError m) => .error (.validationError m)
      | .error e => .error e
      | .ok s1 =>
          match UserPollSerializer.create user anonymous_id s1 rest with
          | .error e => .error e
          | .ok (s2, rows) => .ok (s2, row :: rows)

/-- Result of a successful vote call: the committed store and the list of
persisted Answer rows. -/
structure VoteResult where
  store : Store
  answers_db : List Answer
  deriving DecidableEq, Repr

/-- UserPolls.vote_in_poll from views.py: field validation, then
UserPollSerializer.validate, then UserPollSerializer.create, the whole
method wrapped in transaction.atomic so an error commits nothing. -/
def UserPolls.vote_in_poll (s : Store) (pk : Nat) (user : Option Nat)
    (anonymous_id : Option Int) (raws : List RawAnswer) : Except PyErr VoteResult :=
  match resolveAnswers s raws with
  | .error e => .error e
  | .ok attrs =>
      match UserPollSerializer.validate s pk attrs with
      | .error e => .error e
      | .ok _ =>
          match UserPollSerializer.create user anonymous_id s attrs with
          | .error e => .error e
          | .ok (s2, rows) => .ok ⟨s2, rows⟩

/-- The store visible after a vote call: the new store on success, the
original store on any error (the transaction rolled back). -/
def voteFinalStore (s : Store) (pk : Nat) (user : Option Nat)
    (anonymous_id : Option Int) (raws : List RawAnswer) : Store :=
  match UserPolls.vote_in_poll s pk user anonymous_id raws with
  | .ok r => r.store
  | .error _ => s

/-- Number of persisted Answer rows for one (user, anonymous_id, question)
triple. -/
def countAnswersFor (s : Store) (u : Option Nat) (a : Option Int) (q : Nat) : Nat :=
  (s.answers.filter (fun r => answerMatches r u a q)).length

/-- QuestionSerializer.validate from serializers.py: when a non-empty
choice list is submitted, its entries must be pairwise distinct. -/
def QuestionSerializer.validate (choices : List String) : Except PyErr Unit :=
  if choices ≠ [] then
    if choices.dedup.length ≠ choices.length then
      .error (.validationError "Choices values must be unique")
    else .ok ()
  else .ok ()

/-- Fresh ChoiceAnswer rows for a bulk_create, ids assigned sequentially. -/
def choiceRows (qid : Nat) : Nat → List String → List ChoiceAnswer
  | _, [] => []
  | n, t :: ts => ⟨n, qid, t⟩ :: choiceRows qid (n + 1) ts

/-- QuestionSerializer save_choices helper: bulk-insert the submitted
choices for the question; an empty list is falsy so nothing is written. -/
def save_choices (s : Store) (qid : Nat) (choices : List String) : Store :=
  if choices = [] then s
  else
    { s with
      choices := s.choices ++ choiceRows qid s.next_id choices,
      next_id := s.next_id + choices.length }

/-- QuestionSerializer.create from serializers.py: reject when the poll is
published; insert the question (an existing question with the same text in
the poll raises IntegrityError, re-raised as a ValidationError); then, for
a question whose type has choices, a single_choice question whose submitted
choice list does not have exactly one entry is rejected; finally the
choices are bulk-inserted. -/
def QuestionSerializer.create (s : Store) (poll : Poll) (text : String)
    (type : QuestionType) (choices : List String) : Except PyErr Store :=
  if poll.is_published then
    .error (.validationError "Cant update published poll")
  else if s.questions.any (fun q => q.poll_id == poll.id && q.text == text) then
    .error (.validationError "This question exists in the poll")
  else
    let q : Question := ⟨s.next_id, poll.id, text, type⟩
    let s1 : Store := { s with questions := s.questions ++ [q], next_id := s.next_id + 1 }
    if q.has_choice && (type == QuestionType.single_choice && choices.length != 1) then
      .error (.validationError "Single choice allow only one choice")
    else
      .ok (save_choices s1 q.id choices)

/-- QuestionAdminViewSet.create endpoint: the view initial fetches the poll
(404 when absent), the serializer validates the choice list, then
QuestionSerializer.create runs inside transaction.atomic. -/
def question_create_view (s : Store) (poll_pk : Nat) (text : String)
    (type : QuestionType) (choices : List String) : Except PyErr Store :=
  match findPoll s poll_pk with
  | none => .error .notFound
  | some poll =>
      match QuestionSerializer.validate choices with
      | .error e => .error e
      | .ok _ => QuestionSerializer.create s poll text type choices

/-- QuestionSerializer.update from serializers.py: reject when the parent
poll is published; delete every existing choice of the question; bulk-insert
the replacement choices; then the framework update writes the new text and
type (a second question of the poll with the same text violates the
uniqueness constraint, an uncaught IntegrityError). No choice-count rule is
applied here. -/
def QuestionSerializer.update (s : Store) (q : Question) (poll : Poll)
    (text : String) (type : QuestionType) (choices : List String) : Except PyErr Store :=
  if poll.is_published then
    .error (.validationError "Cant update published poll")
  else
    let s1 : Store := { s with choices := s.choices.filter (fun c => c.question_id != q.id) }
    let s2 : Store := save_choices s1 q.id choices
    if s2.questions.any (fun q2 => q2.id != q.id && (q2.poll_id == q.poll_id && q2.text == text)) then
      .error .integrityError
    else
      .ok { s2 with
        questions := s2.questions.map
          (fun q2 => if q2.id = q.id then { q2 with text := text, type := type } else q2) }

/-- QuestionAdminViewSet.update endpoint: the view initial fetches the poll
(404 when absent), the object is fetched from the poll-filtered queryset
(404 when absent), the serializer validates the choice list, then
QuestionSerializer.update runs inside transaction.atomic. -/
def question_update_view (s : Store) (poll_pk : Nat) (question_id : Nat)
    (text : String) (type : QuestionType) (choices : List String) : Except PyErr Store :=
  match findPoll s poll_pk with
  | none => .error .notFound
  | some poll =>
      match (pollQuestions s poll_pk).find? (fun q => q.id == question_id) with
      | none => .error .notFound
      | some q =>
          match QuestionSerializer.validate choices with
          | .error e => .error e
          | .ok _ => QuestionSerializer.update s q poll text type choices

/-- QuestionAdminViewSet.destroy from views.py: the view initial fetches
the poll (404 when absent); destroy rejects when the poll is published,
then deletes the question fetched from the poll-filtered queryset (cascade
removes its choices and answers). -/
def QuestionAdminViewSet.destroy (s : Store) (poll_pk : Nat)
    (question_id : Nat) : Except PyErr Store :=
  match findPoll s poll_pk with
  | none => .error .notFound
  | some poll =>
      if poll.is_published then
        .error (.validationError "Poll already published and cannot be changed")
      else
        match (pollQuestions s poll_pk).find? (fun q => q.id == question_id) with
        | none => .error .notFound
        | some _ =>
            .ok { s with
              questions := s.questions.filter (fun q2 => q2.id != question_id),
              choices := s.choices.filter (fun c => c.question_id != question_id),
              answers := s.answers.filter (fun a => a.question_id != question_id) }

/-- The store visible after an admin call: the new store on success, the
original store on any error (the transaction rolled back). -/
def commitOr (r : Except PyErr Store) (s : Store) : Store :=
  match r with
  | .ok s1 => s1
  | .error _ => s

/-! Concrete fixtures used by the claim theorems and witnesses. -/

/-- One UNPUBLISHED poll (id 1) with one text question (id 10), no answers. -/
def storeUnpub : Store :=
  ⟨[⟨1, "p", 0, 100, "d", false⟩], [⟨10, 1, "q1", QuestionType.text⟩], [], [], 100⟩

/-- A submitted text answer to question 10. -/
def rawTextAnswer : RawAnswer := ⟨10, none, some "hi"⟩

/-- One published poll (id 1) with one text question (id 10) and one
already-persisted Answer row of anonymous voter 42 for question 10. -/
def storeVoted : Store :=
  ⟨[⟨1, "p", 0, 100, "d", true⟩], [⟨10, 1, "q1", QuestionType.text⟩], [],
    [⟨90, 10, some "old", [], none, some 42⟩], 100⟩

/-- A store with no rows at all. -/
def storeEmpty : Store := ⟨[], [], [], [], 0⟩

/-- An Answer carrying both a user id and the anonymous id 0. -/
def answerBoth : Answer := ⟨0, 10, none, [], some 1, some 0⟩

/-- A single_choice question used in shape-validation claims. -/
def qSingle : Question := ⟨10, 1, "q", QuestionType.single_choice⟩

/-- One unpublished poll (id 1) whose single_choice question (id 10)
already has one choice row (id 20). -/
def storeSingle : Store :=
  ⟨[⟨1, "p", 0, 100, "d", false⟩], [⟨10, 1, "q1", QuestionType.single_choice⟩],
    [⟨20, 10, "old"⟩], [], 100⟩

/-! Helper lemmas about the write path. -/

theorem Answer.save_ok {s : Store} {a : Answer} {s1 : Store}
    (h : Answer.save s a = .ok s1) :
    s1 = { s with answers := s.answers ++ [a], next_id := s.next_id + 1 } ∧
    s.answers.any (fun r => answerMatches r a.user_id a.anonymous_id a.question_id) = false := by
  unfold Answer.save at h
  by_cases h1 : (a.user_id.isSome && py_truthy_int a.anonymous_id) = true
  · rw [if_pos h1] at h; cases h
  · rw [if_neg h1] at h
    by_cases h2 : (s.answers.any fun r => answerMatches r a.user_id a.anonymous_id a.question_id) = true
    · rw [if_pos h2] at h; cases h
    · rw [if_neg h2] at h
      cases h
      exact ⟨rfl, by simpa using h2⟩

theorem create_ok {user : Option Nat} {anon : Option Int} :
    ∀ (attrs : List AnswerAttrs) (s s2 : Store) (rows : List Answer),
    UserPollSerializer.create user anon s attrs = .ok (s2, rows) →
    s2.polls = s.polls ∧ s2.questions = s.questions ∧ s2.choices = s.choices ∧
    s2.answers = s.answers ++ rows ∧
    rows.map (fun a => a.question_id) = attrs.map (fun t => t.question.id) ∧
    rows.map (fun a => a.choice_ids) = attrs.map (fun t => t.choice.getD []) ∧
    ∀ a ∈ rows, a.user_id = user ∧ a.anonymous_id = anon := by
  intro attrs
  induction attrs with
  | nil =>
      intro s s2 rows h
      unfold UserPollSerializer.create at h
      cases h
      simp
  | cons t rest ih =>
      intro s s2 rows h
      simp only [UserPollSerializer.create] at h
      split at h
      · cases h
      · cases h
      · rename_i s1 hsave
        split at h
        · cases h
        · rename_i s2x rowsx hrec
          cases h
          obtain ⟨hs1eq, _⟩ := Answer.save_ok hsave
          obtain ⟨ih1, ih2, ih3, ih4, ih5, ih6, ih7⟩ := ih s1 _ _ hrec
          subst hs1eq
          refine ⟨by simpa using ih1, by simpa using ih2, by simpa using ih3, ?_, ?_, ?_, ?_⟩
          · simp only [ih4]; simp
          · simpa using ih5
          · simpa using ih6
          · intro a ha
            rcases List.mem_cons.mp ha with h | h
            · subst h; exact ⟨rfl, rfl⟩
            · exact ih7 a h

theorem create_ok_no_dup {user : Option Nat} {anon : Option Int} :
    ∀ (attrs : List AnswerAttrs) (s s2 : Store) (rows : List Answer),
    UserPollSerializer.create user anon s attrs = .ok (s2, rows) →
    ∀ t ∈ attrs, s.answers.any (fun r => answerMatches r user anon t.question.id) = false := by
  intro attrs
  induction attrs with
  | nil => intro s s2 rows h t ht; cases ht
  | cons t rest ih =>
      intro s s2 rows h t2 ht2
      simp only [UserPollSerializer.create] at h
      split at h
      · cases h
      · cases h
      · rename_i s1 hsave
        split at h
        · cases h
        · rename_i s2x rowsx hrec
          obtain ⟨hs1eq, hnodup⟩ := Answer.save_ok hsave
          rcases List.mem_cons.mp ht2 with hh | hh
          · subst hh; exact hnodup
          · have := ih s1 s2x rowsx hrec t2 hh
            subst hs1eq
            simp only [List.any_append] at this
            simpa using (Bool.or_eq_false_iff.mp this).1

theorem resolveAnswer_ok {s : Store} {r : RawAnswer} {a : AnswerAttrs}
    (h : resolveAnswer s r = .ok a) :
    a.question.id = r.question_id ∧ a.choice = r.choice ∧ a.text = r.text := by
  unfold resolveAnswer findQuestion at h
  split at h
  · cases h
  · rename_i q hq
    have hid := List.find?_some hq
    simp only [beq_iff_eq] at hid
    split at h
    · split at h
      · cases h
      · cases h
        exact ⟨by simpa using hid, rfl, rfl⟩
    · cases h

theorem resolveAnswers_ok {s : Store} :
    ∀ (raws : List RawAnswer) (attrs : List AnswerAttrs),
    resolveAnswers s raws = .ok attrs →
    attrs.map (fun a => a.question.id) = raws.map (fun w => w.question_id) ∧
    attrs.map (fun a => a.choice) = raws.map (fun w => w.choice) ∧
    attrs.length = raws.length := by
  intro raws
  induction raws with
  | nil => intro attrs h; cases h; simp
  | cons w rest ih =>
      intro attrs h
      simp only [resolveAnswers] at h
      split at h
      · cases h
      · next a hres =>
          split at h
          · cases h
          · next rest2 hrest =>
              cases h
              obtain ⟨h1, h2, h3⟩ := resolveAnswer_ok hres
              obtain ⟨ih1, ih2, ih3⟩ := ih rest2 hrest
              exact ⟨by simp [h1, ih1], by simp [h2, ih2], by simp [ih3]⟩

theorem userPollValidate_ok {s : Store} {pk : Nat} {answers : List AnswerAttrs}
    (h : UserPollSerializer.validate s pk answers = .ok ()) :
    (pollQuestions s pk).length = answers.length ∧
    (answers.map (fun a => a.question.id)).toFinset =
      ((pollQuestions s pk).map (fun q => q.id)).toFinset := by
  unfold UserPollSerializer.validate at h
  split at h
  · cases h
  · split at h
    · cases h
    · split at h
      · cases h
      · split at h
        · cases h
        · rename_i hlen hset
          exact ⟨not_not.mp hlen, not_not.mp hset⟩

/-! Claim theorems. -/

/-- C1: the claim says a vote submission checks that the target poll is
published and inside its active window, and that no Answer row is ever
persisted for an unpublished poll. In the code the serializer fetches the
poll from view.queryset, the unfiltered Poll.objects.all() class attribute,
and never applies the active filter of get_queryset, so a vote on an
unpublished poll succeeds and persists an Answer row: the intended
published-and-active precondition (visible in UserPolls.get_queryset) is
skipped on the vote path. -/
theorem C1_vote_on_unpublished_poll_persists_answer :
    (findPoll storeUnpub 1).map Poll.is_published = some false ∧
    storeUnpub.answers.length = 0 ∧
    (voteFinalStore storeUnpub 1 none (some 42) [rawTextAnswer]).answers.length = 1 := by
  decide

/-- C2 counterexample: the claim says an answer to a single_choice question
carrying zero choices is rejected; the code only rejects when the choice
count is strictly greater than one, so an empty choice list is accepted. -/
theorem C2_zero_choices_accepted_counterexample :
    AnswerSerializer.validate ⟨qSingle, some [], none⟩ = .ok () ∧
    qSingle.type = QuestionType.single_choice := by
  decide

/-- C2 amended: for a single_choice question, answer-shape validation
accepts a submitted choice list exactly when it has at most one entry and
the text is absent; two or more choices, or a present text, are rejected
(zero choices are accepted, unlike the original claim). -/
theorem C2_single_choice_shape (q : Question) (cs : List Nat) (t : Option String)
    (h : q.type = QuestionType.single_choice) :
    AnswerSerializer.validate ⟨q, some cs, t⟩ = .ok () ↔ cs.length ≤ 1 ∧ t = none := by
  simp only [AnswerSerializer.validate, h]
  split
  · rename_i hc
    refine iff_of_false (by simp) ?_
    rintro ⟨h1, h2⟩
    rcases hc with hc | hc
    · omega
    · exact hc h2
  · rename_i hc
    push_neg at hc
    exact iff_of_true rfl ⟨by omega, hc.2⟩

/-- C2 witness: a one-choice, no-text answer to a single_choice question is
accepted, via the amended theorem. -/
theorem C2_single_choice_shape_witness :
    AnswerSerializer.validate ⟨qSingle, some [7], none⟩ = .ok () :=
  (C2_single_choice_shape qSingle [7] none rfl).mpr (by simp)

/-- C3: accepted submissions answer exactly the poll question set. If a
vote succeeds, the submitted question ids are pairwise distinct and form
exactly the id set of the poll questions (so a missing, extra, duplicated
or foreign question id forces a rejection), and every rejected call leaves
the store unchanged. -/
theorem C3_exact_question_set_required
    (s : Store) (pk : Nat) (user : Option Nat) (anon : Option Int)
    (raws : List RawAnswer)
    (hwf : (s.questions.map (fun q => q.id)).Nodup) :
    (∀ r, UserPolls.vote_in_poll s pk user anon raws = .ok r →
      (raws.map (fun w => w.question_id)).Nodup ∧
      (raws.map (fun w => w.question_id)).toFinset =
        ((pollQuestions s pk).map (fun q => q.id)).toFinset) ∧
    (∀ e, UserPolls.vote_in_poll s pk user anon raws = .error e →
      voteFinalStore s pk user anon raws = s) := by
  constructor
  · intro r hok
    unfold UserPolls.vote_in_poll at hok
    split at hok
    · cases hok
    · rename_i attrs hres
      split at hok
      · cases hok
      · rename_i u hval
        cases u
        split at hok
        · cases hok
        · rename_i s2x rowsx hcr
          obtain ⟨hm1, hm2, hmlen⟩ := resolveAnswers_ok raws attrs hres
          obtain ⟨hvlen, hvset⟩ := userPollValidate_ok hval
          have hpq : ((pollQuestions s pk).map (fun q => q.id)).Nodup :=
            List.Nodup.sublist (List.Sublist.map _ (List.filter_sublist _)) hwf
          have hlenA : (attrs.map (fun a => a.question.id)).length =
              ((pollQuestions s pk).map (fun q => q.id)).length := by
            simp [hvlen]
          have hcard : (attrs.map (fun a => a.question.id)).toFinset.card =
              (attrs.map (fun a => a.question.id)).length := by
            rw [hvset, List.toFinset_card_of_nodup hpq]
            exact hlenA.symm
          rw [List.card_toFinset] at hcard
          have hnodupA : (attrs.map (fun a => a.question.id)).Nodup := by
            rw [← List.dedup_eq_self]
            exact List.Sublist.eq_of_length (List.dedup_sublist _) hcard
          exact ⟨by rw [← hm1]; exact hnodupA, by rw [← hm1]; exact hvset⟩
  · intro e he
    simp [voteFinalStore, he]

/-- C3 witness: a complete well-formed submission to the fixture poll is
accepted and its question-id set matches the poll question-id set. -/
theorem C3_exact_question_set_required_witness :
    ([rawTextAnswer].map (fun w => w.question_id)).toFinset =
      ((pollQuestions storeUnpub 1).map (fun q => q.id)).toFinset :=
  (((C3_exact_question_set_required storeUnpub 1 none (some 42) [rawTextAnswer]
    (by decide)).1
    ⟨⟨[⟨1, "p", 0, 100, "d", false⟩], [⟨10, 1, "q1", QuestionType.text⟩], [],
        [⟨100, 10, some "hi", [], none, some 42⟩], 101⟩,
      [⟨100, 10, some "hi", [], none, some 42⟩]⟩ (by decide))).2

/-- C4 counterexample: the claim says a submission duplicating an
already-answered question WITHIN one call fails with a duplicate-vote
error; in the code such a call is rejected earlier by the completeness
check (count mismatch), whose message differs from the duplicate-vote
message raised by a separate second call. -/
theorem C4_within_call_duplicate_not_duplicate_error :
    UserPolls.vote_in_poll storeVoted 1 none (some 42) [rawTextAnswer, rawTextAnswer] =
      .error (.validationError "pls answer the all questions") ∧
    UserPolls.vote_in_poll storeVoted 1 none (some 42) [rawTextAnswer] =
      .error (.validationError "Value not unique") ∧
    countAnswersFor storeVoted none (some 42) 10 = 1 := by
  decide

/-- C4 amended: when the store already holds an Answer row for the voter
identity and some submitted question, the whole call is rejected (a
separate later call that passes completeness hits the duplicate-vote check;
a call duplicating the question within itself is rejected by the
completeness check first), the store is unchanged and the number of rows
for that voter-question pair stays exactly what it was. -/
theorem C4_duplicate_vote_rejected
    (s : Store) (pk : Nat) (user : Option Nat) (anon : Option Int)
    (raws : List RawAnswer) (q : Nat)
    (hprev : s.answers.any (fun r => answerMatches r user anon q) = true)
    (hq : q ∈ raws.map (fun w => w.question_id)) :
    (∃ e, UserPolls.vote_in_poll s pk user anon raws = .error e) ∧
    voteFinalStore s pk user anon raws = s ∧
    countAnswersFor (voteFinalStore s pk user anon raws) user anon q =
      countAnswersFor s user anon q := by
  have herr : ∀ r, UserPolls.vote_in_poll s pk user anon raws ≠ .ok r := by
    intro r hok
    unfold UserPolls.vote_in_poll at hok
    split at hok
    · cases hok
    · rename_i attrs hres
      split at hok
      · cases hok
      · rename_i u hval
        split at hok
        · cases hok
        · rename_i s2x rowsx hcr
          obtain ⟨hm1, hm2, hmlen⟩ := resolveAnswers_ok raws attrs hres
          rw [← hm1] at hq
          obtain ⟨t, ht, htq⟩ := List.mem_map.mp hq
          have hnd := create_ok_no_dup attrs s s2x rowsx hcr t ht
          rw [htq] at hnd
          exact absurd hprev (by simp [hnd])
  cases hvote : UserPolls.vote_in_poll s pk user anon raws with
  | ok r => exact absurd hvote (herr r)
  | error e =>
      refine ⟨⟨e, rfl⟩, ?_, ?_⟩
      · simp [voteFinalStore, hvote]
      · simp [voteFinalStore, hvote]

/-- C4 witness: resubmitting the already-persisted anonymous answer of the
fixture store is rejected and still exactly one row exists for the pair,
via the amended theorem. -/
theorem C4_duplicate_vote_rejected_witness :
    (∃ e, UserPolls.vote_in_poll storeVoted 1 none (some 42) [rawTextAnswer] = .error e) ∧
    voteFinalStore storeVoted 1 none (some 42) [rawTextAnswer] = storeVoted ∧
    countAnswersFor (voteFinalStore storeVoted 1 none (some 42) [rawTextAnswer])
        none (some 42) 10 =
      countAnswersFor storeVoted none (some 42) 10 :=
  C4_duplicate_vote_rejected storeVoted 1 none (some 42) [rawTextAnswer] 10
    (by decide) (by decide)

/-- C5: vote submissions are all-or-nothing. On success the committed
store extends the answers table by exactly the returned rows - one row per
poll question, each carrying the submitted choice links and the resolved
voter identity - and leaves every other table unchanged; on any error the
visible store is exactly the original one (the transaction rolls back). -/
theorem C5_vote_atomicity (s : Store) (pk : Nat) (user : Option Nat)
    (anon : Option Int) (raws : List RawAnswer) :
    (∀ r, UserPolls.vote_in_poll s pk user anon raws = .ok r →
      r.store.polls = s.polls ∧ r.store.questions = s.questions ∧
      r.store.choices = s.choices ∧
      r.store.answers = s.answers ++ r.answers_db ∧
      r.answers_db.length = (pollQuestions s pk).length ∧
      (r.answers_db.map (fun a => a.question_id)).toFinset =
        ((pollQuestions s pk).map (fun q => q.id)).toFinset ∧
      r.answers_db.map (fun a => a.choice_ids) = raws.map (fun w => w.choice.getD []) ∧
      (∀ a ∈ r.answers_db, a.user_id = user ∧ a.anonymous_id = anon)) ∧
    (∀ e, UserPolls.vote_in_poll s pk user anon raws = .error e →
      voteFinalStore s pk user anon raws = s) := by
  constructor
  · intro r hok
    unfold UserPolls.vote_in_poll at hok
    split at hok
    · cases hok
    · rename_i attrs hres
      split at hok
      · cases hok
      · rename_i u hval
        cases u
        split at hok
        · cases hok
        · rename_i s2x rowsx hcr
          cases hok
          obtain ⟨hm1, hm2, hmlen⟩ := resolveAnswers_ok raws attrs hres
          obtain ⟨hvlen, hvset⟩ := userPollValidate_ok hval
          obtain ⟨hc1, hc2, hc3, hc4, hc5, hc6, hc7⟩ := create_ok attrs s _ _ hcr
          refine ⟨hc1, hc2, hc3, hc4, ?_, ?_, ?_, hc7⟩
          · have : rowsx.length = attrs.length := by
              have := congrArg List.length hc5
              simpa using this
            rw [this, ← hvlen]
          · rw [hc5, hvset]
          · rw [hc6]
            have h2 : (attrs.map (fun a => a.choice)).map (fun c => c.getD []) =
                (raws.map (fun w => w.choice)).map (fun c => c.getD []) := by
              rw [hm2]
            simpa [List.map_map, Function.comp] using h2
  · intro e he
    simp [voteFinalStore, he]

/-- C5 witness: for the successful fixture vote, the committed answers
table is the original one extended by exactly the returned rows. -/
theorem C5_vote_atomicity_witness :
    (⟨⟨[⟨1, "p", 0, 100, "d", false⟩], [⟨10, 1, "q1", QuestionType.text⟩], [],
        [⟨100, 10, some "hi", [], none, some 42⟩], 101⟩,
      [⟨100, 10, some "hi", [], none, some 42⟩]⟩ : VoteResult).store.answers =
      storeUnpub.answers ++
        (⟨⟨[⟨1, "p", 0, 100, "d", false⟩], [⟨10, 1, "q1", QuestionType.text⟩], [],
            [⟨100, 10, some "hi", [], none, some 42⟩], 101⟩,
          [⟨100, 10, some "hi", [], none, some 42⟩]⟩ : VoteResult).answers_db :=
  (((C5_vote_atomicity storeUnpub 1 none (some 42) [rawTextAnswer]).1
    ⟨⟨[⟨1, "p", 0, 100, "d", false⟩], [⟨10, 1, "q1", QuestionType.text⟩], [],
        [⟨100, 10, some "hi", [], none, some 42⟩], 101⟩,
      [⟨100, 10, some "hi", [], none, some 42⟩]⟩ (by decide))).2.2.2.1

/-- C7 counterexample: the claim says an unauthenticated caller supplying
ANY integer anonymous_id is permitted; the code converts the id with bool,
so the integer 0 counts as not supplied and the caller is rejected. -/
theorem C7_unauthenticated_zero_anonymous_id_rejected :
    UserPollsPermission.has_permission true false none (some 0) = false := by
  decide

/-- C7 amended: for vote and answer-history actions, the permission check
passes iff exactly one of "caller is authenticated" and "caller supplies a
TRUTHY anonymous_id" holds, where truthy means a non-empty query-parameter
string or a non-zero body integer; an anonymous_id of 0 in the body counts
as absent. -/
theorem C7_permission_truthy_xor (a : Bool) (qs : Option String) (di : Option Int) :
    UserPollsPermission.has_permission true a qs di = true ↔
      a ≠ (py_truthy_str qs || py_truthy_int di) := by
  cases a <;> cases hb : (py_truthy_str qs || py_truthy_int di) <;>
    simp [UserPollsPermission.has_permission, hb]

/-- C8 counterexample: the claim says creating a single_choice question
with zero choices succeeds because the count check only fires on a
non-empty choice list; in the code the check is guarded by the question
TYPE (has_choice), not by list non-emptiness, so a zero-choice
single_choice creation is rejected. -/
theorem C8_create_zero_choices_rejected_counterexample :
    question_create_view storeUnpub 1 "newq" QuestionType.single_choice [] =
      .error (.validationError "Single choice allow only one choice") := by
  decide

/-- C8 amended: when creating a question of type single_choice under an
existing unpublished poll with a fresh question text, any submitted choice
list (pairwise distinct) whose length is not exactly one - including the
empty list - is rejected with the single-choice count error, and the store
is unchanged. -/
theorem C8_single_choice_count_always_enforced
    (s : Store) (pk : Nat) (poll : Poll) (text : String) (choices : List String)
    (hp : findPoll s pk = some poll)
    (hpub : poll.is_published = false)
    (hnew : s.questions.any (fun q2 => q2.poll_id == poll.id && q2.text == text) = false)
    (hch : QuestionSerializer.validate choices = .ok ())
    (hn : choices.length ≠ 1) :
    question_create_view s pk text QuestionType.single_choice choices =
      .error (.validationError "Single choice allow only one choice") ∧
    commitOr (question_create_view s pk text QuestionType.single_choice choices) s = s := by
  have hmain : question_create_view s pk text QuestionType.single_choice choices =
      .error (.validationError "Single choice allow only one choice") := by
    unfold question_create_view
    rw [hp, hch]
    simp [QuestionSerializer.create, hpub, hnew, Question.has_choice, hn]
  exact ⟨hmain, by rw [hmain]; rfl⟩

/-- C8 witness: in the unpublished fixture store, creating a single_choice
question with an empty choice list is rejected, via the amended theorem. -/
theorem C8_single_choice_count_always_enforced_witness :
    question_create_view storeUnpub 1 "другой" QuestionType.single_choice [] =
      .error (.validationError "Single choice allow only one choice") :=
  (C8_single_choice_count_always_enforced storeUnpub 1 ⟨1, "p", 0, 100, "d", false⟩
    "другой" [] (by decide) (by decide) (by decide) (by decide) (by decide)).1

/-- C6: once a poll is published, question create, question update and
question delete are each rejected with the published-poll validation error
(create and update provided the payload passes the choice-uniqueness check
that runs first, update provided the question exists), and in every case -
whatever the payload - the committed store is the original one, so the
question-and-choice set of a published poll never changes. -/
theorem C6_published_poll_structure_immutable
    (s : Store) (pk qid : Nat) (poll : Poll) (text : String) (type : QuestionType)
    (choices : List String)
    (hp : findPoll s pk = some poll)
    (hpub : poll.is_published = true) :
    (QuestionSerializer.validate choices = .ok () →
      question_create_view s pk text type choices =
        .error (.validationError "Cant update published poll")) ∧
    (∀ q, (pollQuestions s pk).find? (fun x => x.id == qid) = some q →
      QuestionSerializer.validate choices = .ok () →
      question_update_view s pk qid text type choices =
        .error (.validationError "Cant update published poll")) ∧
    QuestionAdminViewSet.destroy s pk qid =
      .error (.validationError "Poll already published and cannot be changed") ∧
    commitOr (question_create_view s pk text type choices) s = s ∧
    commitOr (question_update_view s pk qid text type choices) s = s ∧
    commitOr (QuestionAdminViewSet.destroy s pk qid) s = s := by
  have hcreate : ∃ e, question_create_view s pk text type choices = .error e := by
    unfold question_create_view
    rw [hp]
    cases hv : QuestionSerializer.validate choices with
    | error e => exact ⟨e, rfl⟩
    | ok u =>
        refine ⟨.validationError "Cant update published poll", ?_⟩
        unfold QuestionSerializer.create
        simp [hpub]
  have hupdate : ∃ e, question_update_view s pk qid text type choices = .error e := by
    unfold question_update_view
    rw [hp]
    cases hfq : (pollQuestions s pk).find? (fun x => x.id == qid) with
    | none => exact ⟨.notFound, rfl⟩
    | some q =>
        cases hv : QuestionSerializer.validate choices with
        | error e => exact ⟨e, rfl⟩
        | ok u =>
            refine ⟨.validationError "Cant update published poll", ?_⟩
            unfold QuestionSerializer.update
            simp [hpub]
  have hdestroy : QuestionAdminViewSet.destroy s pk qid =
      .error (.validationError "Poll already published and cannot be changed") := by
    unfold QuestionAdminViewSet.destroy
    rw [hp]
    simp [hpub]
  refine ⟨?_, ?_, hdestroy, ?_, ?_, by rw [hdestroy]; rfl⟩
  · intro hv
    unfold question_create_view
    rw [hp, hv]
    unfold QuestionSerializer.create
    simp [hpub]
  · intro q hfq hv
    unfold question_update_view
    rw [hp, hfq, hv]
    unfold QuestionSerializer.update
    simp [hpub]
  · obtain ⟨e, he⟩ := hcreate
    rw [he]; rfl
  · obtain ⟨e, he⟩ := hupdate
    rw [he]; rfl

/-- C6 witness: deleting question 10 of the published fixture poll is
rejected with the published-poll error, via the main theorem. -/
theorem C6_published_poll_structure_immutable_witness :
    QuestionAdminViewSet.destroy storeVoted 1 10 =
      .error (.validationError "Poll already published and cannot be changed") :=
  (C6_published_poll_structure_immutable storeVoted 1 10 ⟨1, "p", 0, 100, "d", true⟩
    "t" QuestionType.text [] (by decide) (by decide)).2.2.1

/-- Rows built for a bulk choice insert all belong to the target question
and carry exactly the submitted texts. -/
theorem choiceRows_spec (qid : Nat) : ∀ (n : Nat) (ts : List String),
    (choiceRows qid n ts).map (fun c => c.text) = ts ∧
    (choiceRows qid n ts).filter (fun c => c.question_id == qid) = choiceRows qid n ts ∧
    (choiceRows qid n ts).filter (fun c => c.question_id != qid) = [] := by
  intro n ts
  induction ts generalizing n with
  | nil => simp [choiceRows]
  | cons t rest ih =>
      obtain ⟨ih1, ih2, ih3⟩ := ih (n + 1)
      refine ⟨by simp [choiceRows, ih1], ?_, ?_⟩
      · simp [choiceRows, List.filter_cons, ih2]
      · simp [choiceRows, List.filter_cons, ih3]

/-- Effect of the bulk choice insert on each table. -/
theorem save_choices_spec (s : Store) (qid : Nat) (ts : List String) :
    (save_choices s qid ts).questions = s.questions ∧
    (save_choices s qid ts).polls = s.polls ∧
    (save_choices s qid ts).answers = s.answers ∧
    (save_choices s qid ts).choices.filter (fun c => c.question_id == qid) =
      s.choices.filter (fun c => c.question_id == qid) ++ choiceRows qid s.next_id ts ∧
    (save_choices s qid ts).choices.filter (fun c => c.question_id != qid) =
      s.choices.filter (fun c => c.question_id != qid) := by
  obtain ⟨hm, hfe, hfn⟩ := choiceRows_spec qid s.next_id ts
  unfold save_choices
  by_cases h : ts = []
  · subst h
    simp [choiceRows]
  · rw [if_neg h]
    refine ⟨rfl, rfl, rfl, ?_, ?_⟩
    · rw [List.filter_append, hfe]
    · rw [List.filter_append, hfn, List.append_nil]

/-- C10: question update never applies the single-choice count rule. For
an unpublished poll, updating an existing question with any pairwise
distinct replacement choice list - length zero, one or more - succeeds
(provided the new text collides with no sibling question); afterwards the
choices of that question are exactly the submitted list (the previously
existing ones were deleted first) and the choices of every other question
are untouched. -/
theorem C10_update_ignores_single_choice_count
    (s : Store) (pk qid : Nat) (text : String) (type : QuestionType)
    (choices : List String) (poll : Poll) (q : Question)
    (hp : findPoll s pk = some poll)
    (hpub : poll.is_published = false)
    (hq : (pollQuestions s pk).find? (fun x => x.id == qid) = some q)
    (hch : QuestionSerializer.validate choices = .ok ())
    (htext : s.questions.any
      (fun q2 => q2.id != q.id && (q2.poll_id == q.poll_id && q2.text == text)) = false) :
    ∃ s2, question_update_view s pk qid text type choices = .ok s2 ∧
      (s2.choices.filter (fun c => c.question_id == q.id)).map (fun c => c.text) = choices ∧
      s2.choices.filter (fun c => c.question_id != q.id) =
        s.choices.filter (fun c => c.question_id != q.id) := by
  have hbase : ∀ (s1 : Store), s1 = { s with
      choices := s.choices.filter (fun c => c.question_id != q.id) } →
      (save_choices s1 q.id choices).choices.filter (fun c => c.question_id == q.id) =
          choiceRows q.id s1.next_id choices ∧
      (save_choices s1 q.id choices).choices.filter (fun c => c.question_id != q.id) =
          s.choices.filter (fun c => c.question_id != q.id) ∧
      (save_choices s1 q.id choices).questions = s.questions := by
    intro s1 hs1
    obtain ⟨hq1, hq2, hq3, hq4, hq5⟩ := save_choices_spec s1 q.id choices
    refine ⟨?_, ?_, by rw [hq1, hs1]⟩
    · rw [hq4, hs1]
      have : (List.filter (fun c => c.question_id == q.id)
          (s.choices.filter (fun c => c.question_id != q.id))) = [] := by
        rw [List.filter_filter]
        have : ∀ c : ChoiceAnswer,
            ((c.question_id == q.id) && (c.question_id != q.id)) = false := by
          intro c
          cases hb : (c.question_id == q.id) <;> simp [bne, hb]
        simp only [this, List.filter_false]
      simp [this]
    · rw [hq5, hs1]
      simp only [List.filter_filter]
      have : ∀ c : ChoiceAnswer,
          ((c.question_id != q.id) && (c.question_id != q.id)) = (c.question_id != q.id) := by
        intro c
        cases hb : (c.question_id != q.id) <;> simp [hb]
      simp only [this]
  obtain ⟨hb1, hb2, hb3⟩ := hbase _ rfl
  have hview : question_update_view s pk qid text type choices =
      QuestionSerializer.update s q poll text type choices := by
    unfold question_update_view
    rw [hp, hq, hch]
  rw [hview]
  unfold QuestionSerializer.update
  rw [hpub]
  rw [if_neg (by simp : ¬(false = true))]
  simp only [hb3, htext, Bool.false_eq_true, if_false]
  refine ⟨_, rfl, ?_, ?_⟩
  · rw [hb1]
    exact (choiceRows_spec q.id _ choices).1
  · exact hb2

/-- C10 witness: replacing the single existing choice of the fixture
single_choice question by a TWO-entry choice list succeeds, and afterwards
the question has exactly those two choices, via the main theorem. -/
theorem C10_update_ignores_single_choice_count_witness :
    ∃ s2, question_update_view storeSingle 1 10 "q1" QuestionType.single_choice ["a", "b"] =
        .ok s2 ∧
      (s2.choices.filter (fun c => c.question_id ==
          (⟨10, 1, "q1", QuestionType.single_choice⟩ : Question).id)).map (fun c => c.text) =
        ["a", "b"] ∧
      s2.choices.filter (fun c => c.question_id !=
          (⟨10, 1, "q1", QuestionType.single_choice⟩ : Question).id) =
        storeSingle.choices.filter (fun c => c.question_id !=
          (⟨10, 1, "q1", QuestionType.single_choice⟩ : Question).id) :=
  C10_update_ignores_single_choice_count storeSingle 1 10 "q1" QuestionType.single_choice
    ["a", "b"] ⟨1, "p", 0, 100, "d", false⟩ ⟨10, 1, "q1", QuestionType.single_choice⟩
    (by decide) (by decide) (by decide) (by decide) (by decide)

/-- C9 counterexample: the claim says Answer.save raises whenever both user
and anonymous_id are set; the code tests Python truthiness, and the integer
0 is falsy, so an Answer with a user AND anonymous_id 0 is persisted with
both identity fields non-null. -/
theorem C9_user_and_zero_anonymous_both_persisted :
    Answer.save storeEmpty answerBoth =
      .ok { storeEmpty with answers := [answerBoth], next_id := 1 } ∧
    answerBoth.user_id.isSome = true ∧ answerBoth.anonymous_id.isSome = true := by
  decide

/-- C9 amended: Answer.save raises whenever the user field is set and the
anonymous_id field is TRUTHY (non-null and non-zero), and an Answer with
neither identity set is not rejected at the model layer (it saves whenever
no duplicate row exists). -/
theorem C9_answer_save_identity_rules (s : Store) (a : Answer) :
    (a.user_id.isSome = true → py_truthy_int a.anonymous_id = true →
      Answer.save s a = .error (.valueError "Cant use user auth and anonymous token both")) ∧
    (a.user_id = none → a.anonymous_id = none →
      s.answers.any (fun r => answerMatches r a.user_id a.anonymous_id a.question_id) = false →
      Answer.save s a = .ok { s with answers := s.answers ++ [a], next_id := s.next_id + 1 }) := by
  constructor
  · intro h1 h2
    unfold Answer.save
    rw [if_pos (by simp [h1, h2])]
  · intro h1 h2 h3
    unfold Answer.save
    rw [if_neg (by simp [h1]), if_neg (by simp [h3])]

/-- C9 witness: a user-identified Answer with non-zero anonymous_id is
rejected by Answer.save, via the amended theorem. -/
theorem C9_answer_save_identity_rules_witness :
    Answer.save storeEmpty ⟨0, 10, none, [], some 1, some 2⟩ =
      .error (.valueError "Cant use user auth and anonymous token both") :=
  (C9_answer_save_identity_rules storeEmpty ⟨0, 10, none, [], some 1, some 2⟩).1
    (by decide) (by decide)

end PollsFr
